import Mathlib

/-!
Shallow embedding of the private-captcha verification client
(`index.js`): error taxonomy, verify-code mapping, configuration
normalization, the single-request executor and the retrying verify
loop, together with theorems about the claims of the specification.
The network is modelled as a function from attempt index to a fetch
outcome; waits are recorded rather than slept.
-/

namespace PrivateCaptcha

/-- Error taxonomy of the client: HTTPError (status, optional retry-after
seconds, optional trace id attached as an ad hoc property), the terminal
VerificationError wrapper (message, original error, attempt field),
SolutionError for malformed caller input, and plain errors (network
failures, timeouts, and other generic errors). -/
inductive JSError where
  | httpError (statusCode : Nat) (retryAfterSeconds : Option Int) (traceId : Option String)
  | verificationError (message : String) (originalError : JSError) (attempt : Nat)
  | solutionError (message : String)
  | genericError (message : String)
deriving Repr, DecidableEq

/-- Message carried by an error, as produced by the constructors used in
the source: an HTTPError built without an explicit message gets the
default message, the others store the message they were given. -/
def JSError.message : JSError → String
  | .httpError s _ _ => "HTTP Error " ++ toString s
  | .verificationError m _ _ => m
  | .solutionError m => m
  | .genericError m => m

/-- Trace-id property of an error: present only on an HTTPError whose
trace id field is set; no other error kind carries one. -/
def traceIdOfError : JSError → Option String
  | .httpError _ _ t => t
  | _ => none

/-- Model of getStatusCode: a direct HTTPError yields its status and true;
a VerificationError whose originalError is an HTTPError yields the inner
status and true; anything else yields 0 and false. -/
def getStatusCode : JSError → Nat × Bool
  | .httpError s _ _ => (s, true)
  | .verificationError _ (.httpError s _ _) _ => (s, true)
  | _ => (0, false)

def GlobalDomain : String := "api.privatecaptcha.com"

def EUDomain : String := "api.eu.privatecaptcha.com"

def DefaultFormField : String := "private-captcha-solution"

/-- HTTP status codes the retry loop treats as retriable. -/
def retriableStatusCodes : List Nat := [408, 425, 429, 500, 502, 503, 504]

namespace VerifyCode

def VerifyNoError : Int := 0

def VerifyErrorOther : Int := 1

def DuplicateSolutionsError : Int := 2

def InvalidSolutionError : Int := 3

def ParseResponseError : Int := 4

def PuzzleExpiredError : Int := 5

def InvalidPropertyError : Int := 6

def WrongOwnerError : Int := 7

def VerifiedBeforeError : Int := 8

def MaintenanceModeError : Int := 9

def TestPropertyError : Int := 10

def IntegrityError : Int := 11

end VerifyCode

/-- String representation of a verify code, following the switch statement
of the source; any code outside the enumeration falls to the default. -/
def verifyCodeToString (code : Int) : String :=
  if code = VerifyCode.VerifyNoError then ""
  else if code = VerifyCode.VerifyErrorOther then "error-other"
  else if code = VerifyCode.DuplicateSolutionsError then "solution-duplicates"
  else if code = VerifyCode.InvalidSolutionError then "solution-invalid"
  else if code = VerifyCode.ParseResponseError then "solution-bad-format"
  else if code = VerifyCode.PuzzleExpiredError then "puzzle-expired"
  else if code = VerifyCode.InvalidPropertyError then "property-invalid"
  else if code = VerifyCode.WrongOwnerError then "property-owner-mismatch"
  else if code = VerifyCode.VerifiedBeforeError then "solution-verified-before"
  else if code = VerifyCode.MaintenanceModeError then "maintenance-mode"
  else if code = VerifyCode.TestPropertyError then "property-test"
  else if code = VerifyCode.IntegrityError then "integrity-error"
  else "error"

/-- Whether one string starts with another, computed on the character
lists. -/
def jsStartsWith (s p : String) : Bool := p.data.isPrefixOf s.data

/-- Drop the first n characters of a string. -/
def jsDrop (s : String) (n : Nat) : String := String.mk (s.data.drop n)

/-- Strip a leading http or https scheme, the replace of the anchored
regular expression for schemes in the constructor. -/
def stripScheme (domain : String) : String :=
  if jsStartsWith domain "https://" then jsDrop domain 8
  else if jsStartsWith domain "http://" then jsDrop domain 7
  else domain

/-- Domain normalization of the constructor: the scheme strip runs only
when the string starts with http. -/
def normalizeDomain (domain : String) : String :=
  if jsStartsWith domain "http" then stripScheme domain else domain

/-- Model of the JavaScript trimEnd method: it removes trailing
whitespace; JavaScript ignores any argument passed to it, so the slash
argument in the source has no effect. -/
def jsTrimEnd (s : String) : String :=
  String.mk ((s.data.reverse.dropWhile Char.isWhitespace).reverse)

/-- Endpoint resolution of the constructor: normalize the domain, apply
trimEnd, and wrap in the https scheme and the verify path. -/
def resolveEndpoint (domain : String) : String :=
  "https://" ++ jsTrimEnd (normalizeDomain domain) ++ "/verify"

/-- Raw configuration object handed to the constructor; absent optional
fields are none. -/
structure Configuration where
  domain : Option String := none
  apiKey : String
  formField : Option String := none
  failedStatusCode : Option Nat := none
  timeoutMs : Option Nat := none
deriving Repr, DecidableEq

/-- A string option defaulted through JavaScript truthiness: none and the
empty string both fall back to the default. -/
def jsStringOr (v : Option String) (dflt : String) : String :=
  match v with
  | some s => if s = "" then dflt else s
  | none => dflt

/-- A number option defaulted through JavaScript truthiness: none and
zero both fall back to the default. -/
def jsNatOr (v : Option Nat) (dflt : Nat) : Nat :=
  match v with
  | some n => if n = 0 then dflt else n
  | none => dflt

/-- Resolved client state after construction. -/
structure Client where
  endpoint : String
  apiKey : String
  formField : String
  failedStatusCode : Nat
  timeoutMs : Nat
deriving Repr, DecidableEq

/-- Model of the constructor: reject an empty api key, default the
domain, normalize it into the endpoint, default the remaining fields. -/
def Client.make (config : Configuration) : Except String Client :=
  if config.apiKey = "" then .error "privatecaptcha: API key is empty"
  else .ok {
    endpoint := resolveEndpoint (jsStringOr config.domain GlobalDomain),
    apiKey := config.apiKey,
    formField := jsStringOr config.formField DefaultFormField,
    failedStatusCode := jsNatOr config.failedStatusCode 403,
    timeoutMs := jsNatOr config.timeoutMs 30000 }

/-- Parsed JSON body of a verification response. -/
structure ResponseBody where
  success : Bool
  code : Int
  origin : Option String := none
  timestamp : Option String := none
deriving Repr, DecidableEq

/-- An HTTP response as observed by the request executor: status code,
the Retry-After and X-Trace-ID headers, and the parsed body. -/
structure HttpResponse where
  status : Nat
  retryAfterHeader : Option String := none
  traceIdHeader : Option String := none
  body : ResponseBody
deriving Repr, DecidableEq

/-- Outcome of one fetch call: a network failure, an abort by the
timeout, or a response. -/
inductive FetchOutcome where
  | networkError (message : String)
  | timeout
  | response (r : HttpResponse)
deriving Repr, DecidableEq

/-- Result value returned by a successful verification. -/
structure VerifyOutput where
  success : Bool
  code : Int
  origin : Option String
  timestamp : Option String
  requestID : String
deriving Repr, DecidableEq

/-- Model of parseInt with radix ten: skip surrounding whitespace, read
an optional sign and then the longest digit prefix; no digit means NaN,
modelled as none. -/
def jsParseInt (s : String) : Option Int :=
  let cs := s.data.dropWhile Char.isWhitespace
  let signAndRest : Int × List Char :=
    match cs with
    | '-' :: r => (-1, r)
    | '+' :: r => (1, r)
    | r => (1, r)
  let ds := signAndRest.2.takeWhile Char.isDigit
  if ds.isEmpty then none
  else some (signAndRest.1 * (ds.foldl (fun acc c => acc * 10 + (c.toNat - 48)) 0 : Nat))

/-- Retry-after seconds stored on an HTTPError: parsed from a truthy
Retry-After header of a 429 response, then assigned only when itself
truthy, that is nonzero. -/
def retryAfterOf (r : HttpResponse) : Option Int :=
  let parsed : Option Int :=
    if r.status = 429 then
      match r.retryAfterHeader with
      | some h => if h = "" then none else jsParseInt h
      | none => none
    else none
  match parsed with
  | some v => if v = 0 then none else some v
  | none => none

/-- Model of one verification attempt: network failures and timeouts
become plain errors; a response with status at least 300 becomes an
HTTPError carrying the status and the retry-after seconds; the trace id
field of the error is never populated. A response below 300 becomes a
VerifyOutput whose requestID is the X-Trace-ID header or the empty
string. -/
def doVerify (timeoutMs : Nat) (outcome : FetchOutcome) : Except JSError VerifyOutput :=
  match outcome with
  | .networkError m => .error (.genericError m)
  | .timeout => .error (.genericError ("Request timeout after " ++ toString timeoutMs ++ "ms"))
  | .response r =>
      if 300 ≤ r.status then
        .error (.httpError r.status (retryAfterOf r) none)
      else
        .ok { success := r.body.success, code := r.body.code, origin := r.body.origin,
              timestamp := r.body.timestamp, requestID := r.traceIdHeader.getD "" }

/-- A JavaScript number field of the verify input: absent, NaN, or a
numeric value. -/
inductive JSNum where
  | undefined
  | nan
  | num (val : Int)
deriving Repr, DecidableEq

/-- JavaScript comparison of the field with zero: only an actual number
greater than zero passes. -/
def JSNum.isPos : JSNum → Bool
  | .num v => decide (0 < v)
  | _ => false

/-- Input of one verify call. -/
structure VerifyInput where
  solution : Option String := none
  maxBackoffSeconds : JSNum := .undefined
  attempts : JSNum := .undefined
deriving Repr, DecidableEq

/-- Effective attempt budget: the attempts field when positive, else 5. -/
def effectiveAttempts (i : VerifyInput) : Nat :=
  match i.attempts with
  | .num v => if 0 < v then v.toNat else 5
  | _ => 5

/-- Effective backoff ceiling in seconds: the maxBackoffSeconds field
when positive, else 10. -/
def effectiveMaxBackoff (i : VerifyInput) : Nat :=
  match i.maxBackoffSeconds with
  | .num v => if 0 < v then v.toNat else 10
  | _ => 10

/-- Wait before a retry: the current exponential delay, overridden by
min of retry-after seconds and the ceiling, times 1000, when the last
error is an HTTPError with status 429 and a truthy retry-after value and
the override exceeds the current delay. -/
def backoffWait (currentDelay : Nat) (maxBackoffSeconds : Nat) (lastError : Option JSError) : Nat :=
  match lastError with
  | some (.httpError 429 (some ras) _) =>
      if ras = 0 then currentDelay
      else
        let retryAfterMs : Int := min ras (maxBackoffSeconds : Int) * 1000
        if (currentDelay : Int) < retryAfterMs then retryAfterMs.toNat else currentDelay
  | _ => currentDelay

/-- Retry eligibility after a failed attempt: an HTTPError is retried
only when its status is in the retriable list, every other error is
retried. -/
def shouldRetry : JSError → Bool
  | .httpError s _ _ => retriableStatusCodes.contains s
  | _ => true

/-- Waits performed at the top of a loop iteration: none on attempt 0,
otherwise one backoff wait. -/
def waitsBefore (attempt currentDelay maxBackoffSeconds : Nat) (lastError : Option JSError) : List Nat :=
  if attempt = 0 then [] else [backoffWait currentDelay maxBackoffSeconds lastError]

/-- Exponential delay update performed in an iteration: unchanged on
attempt 0, otherwise doubled and capped at the ceiling times 1000. -/
def nextDelayOf (attempt currentDelay maxBackoffSeconds : Nat) : Nat :=
  if attempt = 0 then currentDelay else min (currentDelay * 2) (maxBackoffSeconds * 1000)

/-- Terminal error thrown after the loop: a VerificationError whose
message and attempt field use the configured budget, wrapping the last
error. -/
def finalVerificationError (attemptsTotal : Nat) (lastError : Option JSError) : JSError :=
  let le := lastError.getD (.genericError "undefined")
  .verificationError
    ("Verification failed after " ++ toString attemptsTotal ++ " attempts: " ++ le.message)
    le attemptsTotal

deriving instance DecidableEq for Except

/-- Observable trace of one verify call: the waits slept between
attempts, the number of executor calls made, and the final result. -/
structure VerifyTrace where
  waits : List Nat
  calls : Nat
  result : Except JSError VerifyOutput
deriving Repr, DecidableEq

/-- The retry loop: fuel is the remaining iterations of the for loop,
attempt the iteration index, currentDelay and lastError the loop state.
Each iteration waits when attempt is positive, runs the executor,
returns on success, breaks on a non retriable error, and otherwise
recurses with the doubled capped delay and the new last error. -/
def verifyGo (outcomes : Nat → FetchOutcome) (timeoutMs maxBackoffSeconds attemptsTotal : Nat) :
    Nat → Nat → Nat → Option JSError → VerifyTrace
  | 0, _, _, lastError =>
      ⟨[], 0, .error (finalVerificationError attemptsTotal lastError)⟩
  | fuel + 1, attempt, currentDelay, lastError =>
      match doVerify timeoutMs (outcomes attempt) with
      | .ok out =>
          ⟨waitsBefore attempt currentDelay maxBackoffSeconds lastError, 1, .ok out⟩
      | .error e =>
          if shouldRetry e then
            let rest := verifyGo outcomes timeoutMs maxBackoffSeconds attemptsTotal fuel
              (attempt + 1) (nextDelayOf attempt currentDelay maxBackoffSeconds) (some e)
            ⟨waitsBefore attempt currentDelay maxBackoffSeconds lastError ++ rest.waits,
             rest.calls + 1, rest.result⟩
          else
            ⟨waitsBefore attempt currentDelay maxBackoffSeconds lastError, 1,
             .error (finalVerificationError attemptsTotal (some e))⟩

/-- Model of verify: reject an absent or empty solution synchronously,
then run the retry loop with the effective budget and ceiling, starting
at attempt 0 with a 250 ms delay and no last error. -/
def Client.verify (client : Client) (outcomes : Nat → FetchOutcome) (input : VerifyInput) : VerifyTrace :=
  match input.solution with
  | none => ⟨[], 0, .error (.solutionError "privatecaptcha: solution is empty")⟩
  | some s =>
      if s = "" then ⟨[], 0, .error (.solutionError "privatecaptcha: solution is empty")⟩
      else
        verifyGo outcomes client.timeoutMs (effectiveMaxBackoff input) (effectiveAttempts input)
          (effectiveAttempts input) 0 250 none

/-- A host framework request: an optional parsed body of field and value
pairs. -/
structure ExpressRequest where
  body : Option (List (String × String)) := none
deriving Repr, DecidableEq

/-- Property lookup on a parsed body object. -/
def lookupField (body : List (String × String)) (field : String) : Option String :=
  (body.find? (fun p => p.1 = field)).map Prod.snd

/-- Message of the SolutionError raised when the form field is absent. -/
def missingFieldMessage (field : String) : String :=
  "Captcha solution not found in field \x27" ++ field ++
    "\x27. Ensure body parsing middleware is configured."

/-- Model of verifyRequest: read the configured form field from the
parsed body through JavaScript truthiness and either raise SolutionError
without touching the network or run verify on the extracted solution. -/
def Client.verifyRequest (client : Client) (outcomes : Nat → FetchOutcome) (req : ExpressRequest) : VerifyTrace :=
  match req.body with
  | some b =>
      match lookupField b client.formField with
      | some v =>
          if v = "" then ⟨[], 0, .error (.solutionError (missingFieldMessage client.formField))⟩
          else client.verify outcomes { solution := some v }
      | none => ⟨[], 0, .error (.solutionError (missingFieldMessage client.formField))⟩
  | none => ⟨[], 0, .error (.solutionError (missingFieldMessage client.formField))⟩

/-- Action taken by the middleware: pass control to the next handler, or
answer with a status code and a body. -/
inductive MiddlewareAction where
  | callNext
  | respond (status : Nat) (body : String)
deriving Repr, DecidableEq

/-- Model of the middleware: verify the request; pass through on
success true, answer with the failure status and the code string on
success false, and answer with the failure status and the error message
when an error was thrown. -/
def Client.middleware (client : Client) (outcomes : Nat → FetchOutcome) (req : ExpressRequest) : MiddlewareAction :=
  match (client.verifyRequest outcomes req).result with
  | .ok output =>
      if output.success then .callNext
      else .respond client.failedStatusCode
        ("Captcha verification failed: " ++ verifyCodeToString output.code)
  | .error e =>
      .respond client.failedStatusCode ("Captcha verification error: " ++ e.message)

/-- The exponential delay used for the wait before a retry: index 0 is
the initial 250 ms, each later index doubles and caps the previous. -/
def delaySeq (maxBackoffSeconds : Nat) : Nat → Nat
  | 0 => 250
  | k + 1 => min (delaySeq maxBackoffSeconds k * 2) (maxBackoffSeconds * 1000)

/-- The error produced by the executor on attempt k, none when the
attempt succeeds. -/
def attemptError (outcomes : Nat → FetchOutcome) (timeoutMs k : Nat) : Option JSError :=
  match doVerify timeoutMs (outcomes k) with
  | .ok _ => none
  | .error e => some e

/-- A wait list is monotone when every wait is at most the next one. -/
def WaitsMonotone (l : List Nat) : Prop :=
  ∀ j a b, l[j]? = some a → l[j + 1]? = some b → a ≤ b

/-- A client with the default configuration, used for concrete runs. -/
def testClient : Client :=
  ⟨resolveEndpoint GlobalDomain, "test-key", DefaultFormField, 403, 30000⟩

/-- A failed parsed body used by error responses in concrete runs. -/
def sampleBody : ResponseBody := { success := false, code := 1 }

def response400 : HttpResponse := { status := 400, body := sampleBody }

def response400Traced : HttpResponse :=
  { status := 400, traceIdHeader := some "trace-abc", body := sampleBody }

def response429 : HttpResponse :=
  { status := 429, retryAfterHeader := some "5", body := sampleBody }

def responseOk : HttpResponse :=
  { status := 200, traceIdHeader := some "trace-1", body := { success := true, code := 0 } }

/-- Every attempt answers with status 400. -/
def outcomesAll400 : Nat → FetchOutcome := fun _ => .response response400

/-- Attempt 0 answers 429 with a Retry-After of five seconds, the later
attempts fail on the network. -/
def outcomes429ThenNetwork : Nat → FetchOutcome :=
  fun k => if k = 0 then .response response429 else .networkError "fetch failed"

/-- Every attempt succeeds. -/
def outcomesOk : Nat → FetchOutcome := fun _ => .response responseOk

theorem mem_retriable (s : Nat) :
    retriableStatusCodes.contains s = true ↔
      (s = 408 ∨ s = 425 ∨ s = 429 ∨ s = 500 ∨ s = 502 ∨ s = 503 ∨ s = 504) := by
  simp [retriableStatusCodes]

theorem verifyGo_calls_pos (o : Nat → FetchOutcome) (t maxB A a d : Nat)
    (le : Option JSError) (fuel : Nat) (h : 1 ≤ fuel) :
    1 ≤ (verifyGo o t maxB A fuel a d le).calls := by
  obtain ⟨n, rfl⟩ : ∃ n, fuel = n + 1 := ⟨fuel - 1, by omega⟩
  simp only [verifyGo]
  cases hdo : doVerify t (o a) with
  | ok out => simp
  | error e =>
    simp only []
    split <;> simp

/-- C1: evaluation of the failing input: with the default budget of five
attempts and a first response of status 400, the loop stops after a
single executor call, yet the thrown VerificationError carries attempt 5,
the configured budget, instead of the one attempt actually made. -/
theorem verify_attempt_field_is_budget_on_400 :
    (testClient.verify outcomesAll400 { solution := some "test" }).calls = 1 ∧
    (testClient.verify outcomesAll400 { solution := some "test" }).result =
      .error (.verificationError "Verification failed after 5 attempts: HTTP Error 400"
        (.httpError 400 none none) 5) :=
  ⟨by decide, by decide⟩

/-- C4: evaluation of the failing input: for the domain
http://example.com/ the constructor strips the scheme but, because the
JavaScript trimEnd ignores its argument, keeps the trailing slash, so
the resolved endpoint has a double slash and is not the endpoint the
specification states. -/
theorem endpoint_keeps_trailing_slash :
    resolveEndpoint "http://example.com/" = "https://example.com//verify" ∧
    (Client.make { apiKey := "test-key", domain := some "http://example.com/" }).toOption.map
        Client.endpoint = some "https://example.com//verify" ∧
    resolveEndpoint "http://example.com/" ≠ "https://example.com/verify" :=
  ⟨by decide, by decide, by decide⟩

/-- C6: getStatusCode yields the status and true on a direct HTTPError,
unwraps exactly one VerificationError level to an inner HTTPError, and
yields 0 and false on every other error. -/
theorem getStatusCode_spec :
    (∀ s ras tr, getStatusCode (.httpError s ras tr) = (s, true)) ∧
    (∀ m s ras tr a, getStatusCode (.verificationError m (.httpError s ras tr) a) = (s, true)) ∧
    (∀ e : JSError,
        (∀ s ras tr, e ≠ .httpError s ras tr) →
        (∀ m s ras tr a, e ≠ .verificationError m (.httpError s ras tr) a) →
        getStatusCode e = (0, false)) := by
  refine ⟨fun s ras tr => rfl, fun m s ras tr a => rfl, ?_⟩
  intro e h1 h2
  cases e with
  | httpError s ras tr => exact absurd rfl (h1 s ras tr)
  | verificationError m orig a =>
    cases orig with
    | httpError s ras tr => exact absurd rfl (h2 m s ras tr a)
    | verificationError m2 o2 a2 => rfl
    | solutionError m2 => rfl
    | genericError m2 => rfl
  | solutionError m => rfl
  | genericError m => rfl

/-- C6 witness: the three examples of the specification, a raw
HTTPError 403, a VerificationError wrapping an HTTPError 500, and a
plain error. -/
theorem getStatusCode_spec_witness :
    getStatusCode (.httpError 403 none none) = (403, true) ∧
    getStatusCode (.verificationError "m" (.httpError 500 none none) 2) = (500, true) ∧
    getStatusCode (.genericError "plain") = (0, false) :=
  ⟨getStatusCode_spec.1 403 none none,
   getStatusCode_spec.2.1 "m" 500 none none 2,
   getStatusCode_spec.2.2 (.genericError "plain")
     (fun _ _ _ h => JSError.noConfusion h)
     (fun _ _ _ _ _ h => JSError.noConfusion h)⟩

/-- C9: the twelve verify codes map to their string identifiers, with
puzzle-expired for code 5, and every integer outside the enumeration
maps to the generic error string. -/
theorem verifyCodeToString_spec :
    (verifyCodeToString VerifyCode.VerifyNoError = "" ∧
     verifyCodeToString VerifyCode.VerifyErrorOther = "error-other" ∧
     verifyCodeToString VerifyCode.DuplicateSolutionsError = "solution-duplicates" ∧
     verifyCodeToString VerifyCode.InvalidSolutionError = "solution-invalid" ∧
     verifyCodeToString VerifyCode.ParseResponseError = "solution-bad-format" ∧
     verifyCodeToString VerifyCode.PuzzleExpiredError = "puzzle-expired" ∧
     verifyCodeToString VerifyCode.InvalidPropertyError = "property-invalid" ∧
     verifyCodeToString VerifyCode.WrongOwnerError = "property-owner-mismatch" ∧
     verifyCodeToString VerifyCode.VerifiedBeforeError = "solution-verified-before" ∧
     verifyCodeToString VerifyCode.MaintenanceModeError = "maintenance-mode" ∧
     verifyCodeToString VerifyCode.TestPropertyError = "property-test" ∧
     verifyCodeToString VerifyCode.IntegrityError = "integrity-error") ∧
    (∀ code : Int, (code < 0 ∨ 11 < code) → verifyCodeToString code = "error") := by
  refine ⟨by decide, ?_⟩
  intro c hc
  unfold verifyCodeToString
  rw [if_neg (by simp only [VerifyCode.VerifyNoError]; omega),
    if_neg (by simp only [VerifyCode.VerifyErrorOther]; omega),
    if_neg (by simp only [VerifyCode.DuplicateSolutionsError]; omega),
    if_neg (by simp only [VerifyCode.InvalidSolutionError]; omega),
    if_neg (by simp only [VerifyCode.ParseResponseError]; omega),
    if_neg (by simp only [VerifyCode.PuzzleExpiredError]; omega),
    if_neg (by simp only [VerifyCode.InvalidPropertyError]; omega),
    if_neg (by simp only [VerifyCode.WrongOwnerError]; omega),
    if_neg (by simp only [VerifyCode.VerifiedBeforeError]; omega),
    if_neg (by simp only [VerifyCode.MaintenanceModeError]; omega),
    if_neg (by simp only [VerifyCode.TestPropertyError]; omega),
    if_neg (by simp only [VerifyCode.IntegrityError]; omega)]

/-- C9 witness: the out of range code 12 maps to the generic string. -/
theorem verifyCodeToString_spec_witness :
    ((12 : Int) < 0 ∨ (11 : Int) < 12) ∧ verifyCodeToString 12 = "error" :=
  ⟨Or.inr (by omega), verifyCodeToString_spec.2 12 (Or.inr (by omega))⟩

/-- C5 counterexample: a status 400 response carrying the trace header
trace-abc raises an HTTPError whose trace id field is empty, so the
error does not carry the trace identifier although the header was
present. -/
theorem doVerify_error_lacks_trace :
    response400Traced.traceIdHeader = some "trace-abc" ∧
    doVerify 30000 (.response response400Traced) = .error (.httpError 400 none none) ∧
    traceIdOfError (.httpError 400 none none) = none :=
  ⟨rfl, by decide, rfl⟩

/-- C5 amended: no error raised by the request executor ever carries the
trace identifier; the trace header only reaches the requestID of a
successful output. -/
theorem doVerify_errors_never_carry_trace :
    (∀ t o e, doVerify t o = .error e → traceIdOfError e = none) ∧
    (∀ t (r : HttpResponse), r.status < 300 →
        doVerify t (.response r) =
          .ok { success := r.body.success
                code := r.body.code
                origin := r.body.origin
                timestamp := r.body.timestamp
                requestID := r.traceIdHeader.getD "" }) := by
  constructor
  · intro t o e h
    cases o with
    | networkError m =>
      simp only [doVerify, Except.error.injEq] at h
      rw [← h]
      rfl
    | timeout =>
      simp only [doVerify, Except.error.injEq] at h
      rw [← h]
      rfl
    | response r =>
      simp only [doVerify] at h
      split at h
      · simp only [Except.error.injEq] at h
        rw [← h]
        rfl
      · exact absurd h (by simp)
  · intro t r h
    simp only [doVerify]
    rw [if_neg (by omega)]

/-- C5 amended witness: a concrete error carries no trace id and a
concrete success carries the trace header as requestID. -/
theorem doVerify_errors_never_carry_trace_witness :
    traceIdOfError (.httpError 400 none none) = none ∧
    doVerify 30000 (.response responseOk) =
      .ok { success := true
            code := 0
            origin := none
            timestamp := none
            requestID := "trace-1" } :=
  ⟨doVerify_errors_never_carry_trace.1 30000 (.response response400Traced)
      (.httpError 400 none none) (by decide),
   doVerify_errors_never_carry_trace.2 30000 responseOk (by decide)⟩

/-- C7: an absent or empty solution makes verify fail with
SolutionError on an empty trace, zero executor calls and no waits,
whatever the network would have answered; a parsed body without the
configured form field makes verifyRequest fail the same way. -/
theorem solutionError_before_io :
    (∀ (client : Client) (outcomes : Nat → FetchOutcome) (input : VerifyInput),
        (input.solution = none ∨ input.solution = some "") →
        client.verify outcomes input =
          ⟨[], 0, .error (.solutionError "privatecaptcha: solution is empty")⟩) ∧
    (∀ (client : Client) (outcomes : Nat → FetchOutcome) (req : ExpressRequest),
        (∀ b, req.body = some b → lookupField b client.formField = none) →
        client.verifyRequest outcomes req =
          ⟨[], 0, .error (.solutionError (missingFieldMessage client.formField))⟩) := by
  constructor
  · intro c o i h
    unfold Client.verify
    rcases h with h | h <;> rw [h]
    rfl
  · intro c o req h
    unfold Client.verifyRequest
    cases hb : req.body with
    | none => rfl
    | some b => simp [h b hb]

/-- C7 witness: an empty solution and a body missing the default form
field, both against a network that would have succeeded. -/
theorem solutionError_before_io_witness :
    testClient.verify outcomesOk { solution := some "" } =
      ⟨[], 0, .error (.solutionError "privatecaptcha: solution is empty")⟩ ∧
    testClient.verifyRequest outcomesOk { body := some [("other-field", "x")] } =
      ⟨[], 0, .error (.solutionError (missingFieldMessage DefaultFormField))⟩ :=
  ⟨solutionError_before_io.1 testClient outcomesOk { solution := some "" } (Or.inr rfl),
   solutionError_before_io.2 testClient outcomesOk { body := some [("other-field", "x")] }
     (fun b hb => by cases hb; decide)⟩

theorem delaySeq_closed (maxB : Nat) (h : 1 ≤ maxB) (k : Nat) :
    delaySeq maxB k = min (250 * 2 ^ k) (maxB * 1000) := by
  induction k with
  | zero =>
    simp [delaySeq]
    omega
  | succ k ih =>
    rw [delaySeq, ih, pow_succ]
    omega

theorem delaySeq_le_next (maxB : Nat) (h : 1 ≤ maxB) (k : Nat) :
    delaySeq maxB k ≤ delaySeq maxB (k + 1) := by
  rw [delaySeq_closed maxB h, delaySeq_closed maxB h, pow_succ]
  have h2 : (1 : Nat) ≤ 2 ^ k := Nat.one_le_two_pow
  omega

theorem backoffWait_override_bounds (d : Nat) (tr : Option String) (hd : d ≤ 10000) :
    5000 ≤ backoffWait d 10 (some (.httpError 429 (some 5) tr)) ∧
    backoffWait d 10 (some (.httpError 429 (some 5) tr)) ≤ 10000 := by
  unfold backoffWait
  norm_num
  split <;> omega

theorem one_le_effectiveMaxBackoff (i : VerifyInput) : 1 ≤ effectiveMaxBackoff i := by
  rcases hm : i.maxBackoffSeconds with _ | _ | v
  · norm_num [effectiveMaxBackoff, hm]
  · norm_num [effectiveMaxBackoff, hm]
  · simp only [effectiveMaxBackoff, hm]
    split <;> omega

theorem verifyGo_waits_getElem (o : Nat → FetchOutcome) (t maxB A : Nat) :
    ∀ fuel k j w,
      (verifyGo o t maxB A fuel (k + 1) (delaySeq maxB k) (attemptError o t k)).waits[j]? =
        some w →
      w = backoffWait (delaySeq maxB (k + j)) maxB (attemptError o t (k + j)) := by
  intro fuel
  induction fuel with
  | zero =>
    intro k j w hw
    simp [verifyGo] at hw
  | succ n ih =>
    intro k j w hw
    simp only [verifyGo] at hw
    cases hdo : doVerify t (o (k + 1)) with
    | ok out =>
      rw [hdo] at hw
      simp only [waitsBefore, if_neg (Nat.succ_ne_zero k)] at hw
      cases j with
      | zero =>
        simp only [List.getElem?_cons_zero, Option.some.injEq] at hw
        simpa using hw.symm
      | succ j =>
        simp at hw
    | error e =>
      rw [hdo] at hw
      simp only [] at hw
      by_cases hr : shouldRetry e = true
      · rw [if_pos hr] at hw
        simp only [waitsBefore, if_neg (Nat.succ_ne_zero k), List.singleton_append] at hw
        have hne : attemptError o t (k + 1) = some e := by
          unfold attemptError
          rw [hdo]
        have hnd : nextDelayOf (k + 1) (delaySeq maxB k) maxB = delaySeq maxB (k + 1) := by
          simp [nextDelayOf, delaySeq]
        cases j with
        | zero =>
          simp only [List.getElem?_cons_zero, Option.some.injEq] at hw
          simpa using hw.symm
        | succ j =>
          simp only [List.getElem?_cons_succ] at hw
          rw [hnd, ← hne] at hw
          have hres := ih (k + 1) j w hw
          rw [show k + (j + 1) = (k + 1) + j by omega]
          exact hres
      · rw [if_neg hr] at hw
        simp only [waitsBefore, if_neg (Nat.succ_ne_zero k)] at hw
        cases j with
        | zero =>
          simp only [List.getElem?_cons_zero, Option.some.injEq] at hw
          simpa using hw.symm
        | succ j =>
          simp at hw

theorem verifyGo_start_waits (o : Nat → FetchOutcome) (t maxB A fuel : Nat) :
    ∀ j w, (verifyGo o t maxB A fuel 0 250 none).waits[j]? = some w →
      w = backoffWait (delaySeq maxB j) maxB (attemptError o t j) := by
  cases fuel with
  | zero =>
    intro j w hw
    simp [verifyGo] at hw
  | succ n =>
    intro j w hw
    simp only [verifyGo] at hw
    cases hdo : doVerify t (o 0) with
    | ok out =>
      rw [hdo] at hw
      simp [waitsBefore] at hw
    | error e =>
      rw [hdo] at hw
      simp only [] at hw
      by_cases hr : shouldRetry e = true
      · rw [if_pos hr] at hw
        simp only [waitsBefore, if_pos rfl, List.nil_append] at hw
        have hne : attemptError o t 0 = some e := by
          unfold attemptError
          rw [hdo]
        have hnd : nextDelayOf 0 250 maxB = delaySeq maxB 0 := by
          simp [nextDelayOf, delaySeq]
        rw [hnd, ← hne] at hw
        have hres := verifyGo_waits_getElem o t maxB A n 0 j w hw
        simpa using hres
      · rw [if_neg hr] at hw
        simp [waitsBefore] at hw

/-- C2 amended: the j-th wait of a verify run equals the backoff wait
computed from the j-th exponential delay and the error of attempt j,
where the exponential delay starts at 250 ms, doubles each retry and is
capped at maxBackoffSeconds times 1000; the exponential delays are
monotonically non-decreasing; a 429 override with Retry-After 5 under a
ten second ceiling yields a wait between 5000 and 10000 ms. The actual
waits need not be monotone across attempts, because the override does
not advance the exponential delay. -/
theorem verify_backoff_spec (client : Client) (outcomes : Nat → FetchOutcome)
    (input : VerifyInput) (maxB : Nat) (hmB : maxB = effectiveMaxBackoff input) :
    (∀ j w, (client.verify outcomes input).waits[j]? = some w →
        w = backoffWait (delaySeq maxB j) maxB (attemptError outcomes client.timeoutMs j)) ∧
    (∀ k, delaySeq maxB k = min (250 * 2 ^ k) (maxB * 1000)) ∧
    (∀ k, delaySeq maxB k ≤ delaySeq maxB (k + 1)) ∧
    (∀ d tr, d ≤ 10000 →
        5000 ≤ backoffWait d 10 (some (.httpError 429 (some 5) tr)) ∧
        backoffWait d 10 (some (.httpError 429 (some 5) tr)) ≤ 10000) := by
  have h1 : 1 ≤ maxB := hmB ▸ one_le_effectiveMaxBackoff input
  refine ⟨?_, delaySeq_closed maxB h1, delaySeq_le_next maxB h1, backoffWait_override_bounds⟩
  intro j w hw
  unfold Client.verify at hw
  rcases hsol : input.solution with _ | s
  · rw [hsol] at hw
    simp at hw
  · rw [hsol] at hw
    simp only [] at hw
    by_cases hs : s = ""
    · rw [if_pos hs] at hw
      simp at hw
    · rw [if_neg hs] at hw
      rw [hmB]
      exact verifyGo_start_waits outcomes client.timeoutMs (effectiveMaxBackoff input)
        (effectiveAttempts input) (effectiveAttempts input) j w hw

/-- C2 witness: the override example at the initial 250 ms delay, and
the first step of the exponential delay sequence under a ten second
ceiling. -/
theorem verify_backoff_spec_witness :
    (5000 ≤ backoffWait 250 10 (some (.httpError 429 (some 5) none)) ∧
      backoffWait 250 10 (some (.httpError 429 (some 5) none)) ≤ 10000) ∧
    delaySeq 10 0 ≤ delaySeq 10 1 :=
  ⟨(verify_backoff_spec testClient outcomesOk { solution := some "s" } 10 rfl).2.2.2
      250 none (by omega),
   (verify_backoff_spec testClient outcomesOk { solution := some "s" } 10 rfl).2.2.1 0⟩

/-- C2 counterexample: a first attempt failing with 429 and Retry-After
5 under a ten second ceiling waits 5000 ms, and a second failed attempt,
a network error, waits only 500 ms, so the waits of one verify call are
not monotonically non-decreasing. -/
theorem verify_waits_not_monotone :
    (testClient.verify outcomes429ThenNetwork
        { solution := some "s", attempts := .num 3, maxBackoffSeconds := .num 10 }).waits =
      [5000, 500] ∧
    ¬ WaitsMonotone (testClient.verify outcomes429ThenNetwork
        { solution := some "s", attempts := .num 3, maxBackoffSeconds := .num 10 }).waits := by
  refine ⟨by decide, fun hmono => ?_⟩
  have h := hmono 0 5000 500 (by decide) (by decide)
  omega

/-- The retry condition as the specification states it: any error that
is not an HTTPError, or an HTTPError whose status belongs to the fixed
set 408, 425, 429, 500, 502, 503, 504. -/
def RetriableErr : JSError → Prop
  | .httpError s _ _ =>
      s = 408 ∨ s = 425 ∨ s = 429 ∨ s = 500 ∨ s = 502 ∨ s = 503 ∨ s = 504
  | _ => True

/-- C3: when an attempt fails and budget remains, the loop makes a
further executor call exactly when the error is not an HTTPError or is
an HTTPError whose status lies in 408, 425, 429, 500, 502, 503, 504;
any other HTTP status stops the loop at once whatever the remaining
budget. -/
theorem retry_classification (outcomes : Nat → FetchOutcome) (timeoutMs maxB A a d : Nat)
    (lastError : Option JSError) (fuel : Nat) (err : JSError)
    (hdo : doVerify timeoutMs (outcomes a) = .error err) (hf : 2 ≤ fuel) :
    1 < (verifyGo outcomes timeoutMs maxB A fuel a d lastError).calls ↔ RetriableErr err := by
  obtain ⟨n, hn, rfl⟩ : ∃ n, 1 ≤ n ∧ fuel = n + 1 := ⟨fuel - 1, by omega, by omega⟩
  simp only [verifyGo]
  rw [hdo]
  simp only []
  have hpos := verifyGo_calls_pos outcomes timeoutMs maxB A (a + 1)
    (nextDelayOf a d maxB) (some err) n hn
  cases err with
  | httpError s ras tr =>
    simp only [shouldRetry, RetriableErr]
    by_cases hc : retriableStatusCodes.contains s = true
    · rw [if_pos hc]
      simp only []
      constructor
      · intro _
        exact (mem_retriable s).mp hc
      · intro _
        omega
    · rw [if_neg hc]
      simp only []
      constructor
      · intro hlt
        omega
      · intro hdisj
        exact absurd ((mem_retriable s).mpr hdisj) hc
  | verificationError m orig at2 =>
    simp only [shouldRetry, RetriableErr]
    rw [if_pos trivial]
    simp only []
    constructor
    · intro _
      trivial
    · intro _
      omega
  | solutionError m =>
    simp only [shouldRetry, RetriableErr]
    rw [if_pos trivial]
    simp only []
    constructor
    · intro _
      trivial
    · intro _
      omega
  | genericError m =>
    simp only [shouldRetry, RetriableErr]
    rw [if_pos trivial]
    simp only []
    constructor
    · intro _
      trivial
    · intro _
      omega

/-- C3 witness: a first attempt answering status 400, not retriable,
stops the loop after a single call although a second attempt remained. -/
theorem retry_classification_witness :
    ¬ 1 < (verifyGo outcomesAll400 30000 10 5 2 0 250 none).calls :=
  fun h =>
    absurd ((retry_classification outcomesAll400 30000 10 5 0 250 none 2
        (.httpError 400 none none) (by decide) (by omega)).mp h)
      (by norm_num [RetriableErr])

/-- C8: the middleware is a total function of the verification result:
it calls the next handler when the output has success true, answers
with the configured failure status and the code string when success is
false, answers with the failure status and the error message when an
error was raised, and in every case either calls next or answers with
the failure status, never propagating an exception. -/
theorem middleware_spec (client : Client) (outcomes : Nat → FetchOutcome) (req : ExpressRequest) :
    (∀ out, (client.verifyRequest outcomes req).result = .ok out →
        (out.success = true → client.middleware outcomes req = .callNext) ∧
        (out.success = false → client.middleware outcomes req =
          .respond client.failedStatusCode
            ("Captcha verification failed: " ++ verifyCodeToString out.code))) ∧
    (∀ e, (client.verifyRequest outcomes req).result = .error e →
        client.middleware outcomes req =
          .respond client.failedStatusCode ("Captcha verification error: " ++ e.message)) ∧
    (client.middleware outcomes req = .callNext ∨
      ∃ b, client.middleware outcomes req = .respond client.failedStatusCode b) := by
  refine ⟨?_, ?_, ?_⟩
  · intro out hres
    unfold Client.middleware
    rw [hres]
    constructor
    · intro hs
      simp [hs]
    · intro hs
      simp [hs]
  · intro e hres
    unfold Client.middleware
    rw [hres]
  · unfold Client.middleware
    rcases hres : (client.verifyRequest outcomes req).result with e | out
    · right
      exact ⟨_, rfl⟩
    · by_cases hs : out.success = true
      · left
        simp [hs]
      · right
        simp only [Bool.not_eq_true] at hs
        exact ⟨"Captcha verification failed: " ++ verifyCodeToString out.code, by simp [hs]⟩

/-- C8 witness: a request carrying the default form field against a
succeeding network passes control to the next handler. -/
theorem middleware_spec_witness :
    testClient.middleware outcomesOk { body := some [(DefaultFormField, "sol")] } =
      .callNext :=
  ((middleware_spec testClient outcomesOk { body := some [(DefaultFormField, "sol")] }).1
      { success := true, code := 0, origin := none, timestamp := none, requestID := "trace-1" }
      (by decide)).1 rfl

theorem effectiveAttempts_of_nonpos (i : VerifyInput) (h : i.attempts.isPos = false) :
    effectiveAttempts i = 5 := by
  unfold effectiveAttempts
  unfold JSNum.isPos at h
  rcases ha : i.attempts with _ | _ | v
  · rfl
  · rfl
  · rw [ha] at h
    simp only [decide_eq_false_iff_not] at h
    simp [h]

theorem effectiveMaxBackoff_of_nonpos (i : VerifyInput) (h : i.maxBackoffSeconds.isPos = false) :
    effectiveMaxBackoff i = 10 := by
  unfold effectiveMaxBackoff
  unfold JSNum.isPos at h
  rcases ha : i.maxBackoffSeconds with _ | _ | v
  · rfl
  · rfl
  · rw [ha] at h
    simp only [decide_eq_false_iff_not] at h
    simp [h]

/-- C10: when the attempts field is absent, NaN, zero or negative,
verify behaves exactly as with attempts five; when the maxBackoffSeconds
field is absent, NaN, zero or negative, verify behaves exactly as with
maxBackoffSeconds ten; the non positive values are replaced by the
defaults, not rejected. -/
theorem verify_defaults_spec :
    (∀ (client : Client) (outcomes : Nat → FetchOutcome) (input : VerifyInput),
        input.attempts.isPos = false →
        client.verify outcomes input =
          client.verify outcomes { input with attempts := .num 5 }) ∧
    (∀ (client : Client) (outcomes : Nat → FetchOutcome) (input : VerifyInput),
        input.maxBackoffSeconds.isPos = false →
        client.verify outcomes input =
          client.verify outcomes { input with maxBackoffSeconds := .num 10 }) := by
  constructor
  · intro c o i h
    have e1 : effectiveAttempts i = 5 := effectiveAttempts_of_nonpos i h
    have e2 : effectiveAttempts { i with attempts := JSNum.num 5 } = 5 := by
      simp [effectiveAttempts]
    have e3 : effectiveMaxBackoff { i with attempts := JSNum.num 5 } = effectiveMaxBackoff i :=
      rfl
    unfold Client.verify
    simp only []
    rw [e1, e2, e3]
  · intro c o i h
    have e1 : effectiveMaxBackoff i = 10 := effectiveMaxBackoff_of_nonpos i h
    have e2 : effectiveMaxBackoff { i with maxBackoffSeconds := JSNum.num 10 } = 10 := by
      simp [effectiveMaxBackoff]
    have e3 : effectiveAttempts { i with maxBackoffSeconds := JSNum.num 10 } =
        effectiveAttempts i := rfl
    unfold Client.verify
    simp only []
    rw [e1, e2, e3]

/-- C10 witness: a zero attempts field runs exactly as attempts five,
and a negative maxBackoffSeconds field runs exactly as ten. -/
theorem verify_defaults_spec_witness :
    testClient.verify outcomesOk { solution := some "s", attempts := .num 0 } =
      testClient.verify outcomesOk { solution := some "s", attempts := .num 5 } ∧
    testClient.verify outcomesOk { solution := some "s", maxBackoffSeconds := .num (-3) } =
      testClient.verify outcomesOk { solution := some "s", maxBackoffSeconds := .num 10 } :=
  ⟨verify_defaults_spec.1 testClient outcomesOk
      { solution := some "s", attempts := .num 0 } rfl,
   verify_defaults_spec.2 testClient outcomesOk
      { solution := some "s", maxBackoffSeconds := .num (-3) } rfl⟩

end PrivateCaptcha
